import Mathlib

/-!
Verification of the action-dispatch / session-bridging core of the crawl-demo
repository. Python modules are shallowly embedded: each method becomes a total
Lean function on an explicit state, dictionaries become structures with
optional fields, a raised exception becomes `Except.error`, and the external
Playwright / Crawl4AI / BeautifulSoup collaborators are parameters of the
functions that invoke them.
-/


namespace CrawlDemo

/-! ### Python string helpers

`prefChars` / `subChars` implement Python's substring containment operator
(`needle in haystack`), and `pyStrOpt` renders an optional string the way a
Python f-string renders `None`. -/

def prefChars : List Char → List Char → Bool
  | [], _ => true
  | _ :: _, [] => false
  | a :: as, b :: bs => a == b && prefChars as bs

def subChars : List Char → List Char → Bool
  | n, [] => n.isEmpty
  | n, b :: bs => prefChars n (b :: bs) || subChars n bs

def pyIn (needle haystack : String) : Bool :=
  subChars needle.data haystack.data

def pyStrOpt : Option String → String
  | none => "None"
  | some s => s

/-! ### Embedding of `src/src/mcp_wrapper.py`

`MCPWrapper` simulates the browser backend; `MCPSession.executeAction` is the
action dispatcher (`MCPSession.execute_action`). Python keyword arguments are
modelled by `Params`, a record of optional values (`kwargs.get` is `Option`
access). The result dictionaries are modelled by `WDict` with one optional
field per dictionary key that some branch produces; `url`/`selector` have type
`Option (Option String)` because the key may be present with a `None` value.
`WCall` is the trace of wrapper (backend) invocations a dispatch performs;
the `page_state` attribute and the fixed `snapshot` payload are never read by
any caller and are omitted. -/

structure Params where
  url : Option String := none
  selector : Option String := none
  text : Option String := none
  element_description : Option String := none
  timeout : Option Nat := none
  script : Option String := none
  username : Option String := none
  password : Option String := none
  username_selector : Option String := none
  password_selector : Option String := none
  submit_selector : Option String := none
deriving Repr, DecidableEq

structure WDict where
  action : String := ""
  status : String := ""
  message : Option String := none
  url : Option (Option String) := none
  selector : Option (Option String) := none
  element : Option String := none
  html : Option String := none
deriving Repr, DecidableEq

inductive WCall where
  | navigate (url : Option String)
  | click (selector : Option String) (desc : String)
  | typeText (selector text : Option String) (desc : String)
  | snapshot
  | waitForElement (selector : Option String) (timeout : Nat)
  | evaluateJs (script : Option String)
  | getPageContent
deriving Repr, DecidableEq

structure MCPWrapper where
  current_url : Option String := none
deriving Repr, DecidableEq

def MCPWrapper.navigate (w : MCPWrapper) (url : Option String) : MCPWrapper × WDict :=
  ({ w with current_url := url },
   { action := "navigate", url := some url, status := "success",
     message := some ("Successfully navigated to " ++ pyStrOpt url) })

def MCPWrapper.click (w : MCPWrapper) (selector : Option String) (desc : String) :
    MCPWrapper × WDict :=
  (w, { action := "click", selector := some selector, element := some desc,
        status := "success" })

def MCPWrapper.typeText (w : MCPWrapper) (selector text : Option String) (desc : String) :
    MCPWrapper × WDict :=
  (w, { action := "type", selector := some selector, element := some desc,
        status := "success" })

def MCPWrapper.takeSnapshot (w : MCPWrapper) : MCPWrapper × WDict :=
  (w, { action := "snapshot", url := some w.current_url, status := "success" })

def MCPWrapper.waitForElement (w : MCPWrapper) (selector : Option String) (_timeout : Nat) :
    MCPWrapper × WDict :=
  (w, { action := "wait", selector := some selector, status := "success" })

def MCPWrapper.evaluateJs (w : MCPWrapper) (_script : Option String) : MCPWrapper × WDict :=
  (w, { action := "evaluate", status := "success" })

def MCPWrapper.getPageContent (_w : MCPWrapper) : String :=
  "<html><body>Sample HTML content</body></html>"

/-- `MCPWrapper.handle_authentication`: types the username, types the
password, clicks submit (three inner wrapper calls), then reports success. -/
def MCPWrapper.handleAuthentication (w : MCPWrapper)
    (username password : Option String) (us ps ss : String) :
    MCPWrapper × WDict × List WCall :=
  let w1 := (w.typeText (some us) username "Username field").1
  let w2 := (w1.typeText (some ps) password "Password field").1
  let w3 := (w2.click (some ss) "Login button").1
  (w3,
   { action := "authenticate", status := "success",
     message := some "Authentication completed" },
   [WCall.typeText (some us) username "Username field",
    WCall.typeText (some ps) password "Password field",
    WCall.click (some ss) "Login button"])

structure MCPSession where
  wrapper : MCPWrapper := {}
  history : List WDict := []
deriving Repr, DecidableEq

/-- `MCPSession.execute_action`: dispatch on the action name, forward the
(possibly missing) keyword arguments to the wrapper, append the result to the
session history in every branch, and return the result together with the
trace of wrapper calls that were made. -/
def MCPSession.executeAction (s : MCPSession) (action : String) (kw : Params) :
    MCPSession × WDict × List WCall :=
  if action == "navigate" then
    let wr := s.wrapper.navigate kw.url
    ({ s with wrapper := wr.1, history := s.history ++ [wr.2] }, wr.2,
     [WCall.navigate kw.url])
  else if action == "click" then
    let d := kw.element_description.getD "element"
    let wr := s.wrapper.click kw.selector d
    ({ s with wrapper := wr.1, history := s.history ++ [wr.2] }, wr.2,
     [WCall.click kw.selector d])
  else if action == "type" then
    let d := kw.element_description.getD "input field"
    let wr := s.wrapper.typeText kw.selector kw.text d
    ({ s with wrapper := wr.1, history := s.history ++ [wr.2] }, wr.2,
     [WCall.typeText kw.selector kw.text d])
  else if action == "snapshot" then
    let wr := s.wrapper.takeSnapshot
    ({ s with wrapper := wr.1, history := s.history ++ [wr.2] }, wr.2,
     [WCall.snapshot])
  else if action == "wait" then
    let t := kw.timeout.getD 30
    let wr := s.wrapper.waitForElement kw.selector t
    ({ s with wrapper := wr.1, history := s.history ++ [wr.2] }, wr.2,
     [WCall.waitForElement kw.selector t])
  else if action == "evaluate" then
    let wr := s.wrapper.evaluateJs kw.script
    ({ s with wrapper := wr.1, history := s.history ++ [wr.2] }, wr.2,
     [WCall.evaluateJs kw.script])
  else if action == "get_html" then
    let html := s.wrapper.getPageContent
    let r : WDict := { action := "get_html", html := some html, status := "success" }
    ({ s with history := s.history ++ [r] }, r, [WCall.getPageContent])
  else if action == "authenticate" then
    let us := kw.username_selector.getD "input[name='username']"
    let ps := kw.password_selector.getD "input[name='password']"
    let ss := kw.submit_selector.getD "button[type='submit']"
    let wr := s.wrapper.handleAuthentication kw.username kw.password us ps ss
    ({ s with wrapper := wr.1, history := s.history ++ [wr.2.1] }, wr.2.1, wr.2.2)
  else
    let r : WDict := { action := action, status := "error",
                       message := some ("Unknown action: " ++ action) }
    ({ s with history := s.history ++ [r] }, r, [])

def MCPSession.getCurrentUrl (s : MCPSession) : Option String :=
  s.wrapper.current_url

def MCPSession.run (s : MCPSession) (calls : List (String × Params)) : MCPSession :=
  match calls with
  | [] => s
  | c :: rest => ((s.executeAction c.1 c.2).1).run rest

/-- The `url` parameter of the most recent navigate call in a dispatch
sequence, starting from an initial value. -/
def lastNavParam (init : Option String) (calls : List (String × Params)) :
    Option String :=
  calls.foldl (fun acc c => if c.1 == "navigate" then c.2.url else acc) init

/-! ### Embedding of `src/src/crawl_engine.py`

The Crawl4AI crawler is the external collaborator: `arun`, a function from a
url and an optional wait-selector to a `CrawlRunResult`, is a parameter.
`CrawlRunResult` models the duck-typed result object probed with `hasattr`:
an outer `Option` on a field is attribute presence (`media`'s inner `Option`
is the truthiness check `result.media`; `metadata` is its key/value mapping).
`extract_content` accesses `result.success` guarded by
`hasattr(result, 'error_message')` only — when `error_message` exists but
`success` does not, the access raises, which `Except.error` models. -/

structure CrawlRunResult where
  metadata : Option (List (String × String)) := none
  markdown : Option String := none
  links : Option (List (String × String)) := none
  media : Option (Option (List String)) := none
  success : Option Bool := none
  error_message : Option String := none
deriving Repr, DecidableEq

structure ContentDict where
  url : String
  title : String
  content : String
  links : List (String × String)
  images : List String
  success : Bool
  error : Option String
deriving Repr, DecidableEq

def arunRaises (r : CrawlRunResult) : Bool :=
  r.error_message.isSome && r.success.isNone

/-- The dictionary `extract_content` builds when no attribute access raises. -/
def extractContentOk (arun : String → Option String → CrawlRunResult)
    (url : String) (wait_for : Option String) : ContentDict :=
  let r := arun url wait_for
  { url := url,
    title := (r.metadata.map (fun m => (m.lookup "title").getD "")).getD "",
    content := r.markdown.getD "",
    links := r.links.getD [],
    images := (r.media.getD none).getD [],
    success := r.success.getD false,
    error := match r.error_message, r.success with
      | some em, some s => if s then none else some em
      | _, _ => none }

def CrawlEngine.extractContent (arun : String → Option String → CrawlRunResult)
    (url : String) (wait_for : Option String) : Except String ContentDict :=
  if arunRaises (arun url wait_for) then
    Except.error "AttributeError: success"
  else
    Except.ok (extractContentOk arun url wait_for)

/-! `extract_from_html`: BeautifulSoup is the external collaborator, so the
input is the parsed document `SoupDoc` (`get_text`, the `<a href>` anchors in
document order, the `<img src>` entries with `alt` text). Link partitioning
is the source's own logic and is embedded exactly: an href starting with
`"http"` goes to `external`, everything else to `internal`; `base_url` is
accepted but never consulted. `pyStartsWith` is Python's `str.startswith`. -/

def pyStartsWith (s pre : String) : Bool :=
  prefChars pre.data s.data

structure SoupDoc where
  textContent : String
  anchors : List (String × String)
  imgs : List (String × String)
deriving Repr, DecidableEq

structure LinkEntry where
  url : String
  text : String
deriving Repr, DecidableEq

structure HtmlLinks where
  internal : List LinkEntry := []
  external : List LinkEntry := []
deriving Repr, DecidableEq

structure HtmlExtract where
  content : String
  links : HtmlLinks
  images : List (String × String)
  success : Bool
  error : Option String := none
deriving Repr, DecidableEq

def classifyStep (acc : HtmlLinks) (a : String × String) : HtmlLinks :=
  if pyStartsWith a.1 "http" then
    { acc with external := acc.external ++ [⟨a.1, a.2⟩] }
  else
    { acc with internal := acc.internal ++ [⟨a.1, a.2⟩] }

def CrawlEngine.extractFromHtml (doc : SoupDoc) (base_url : Option String) :
    HtmlExtract :=
  { content := doc.textContent,
    links := doc.anchors.foldl classifyStep {},
    images := doc.imgs,
    success := true }

/-! ### Embedding of `src/src/orchestrator.py` (the parts the claims need) -/

/-- `asyncio.gather` over the per-url extraction tasks: the results are
collected in input order; a raised exception propagates out of the gather
(`Except.error`), otherwise the full result list is returned. -/
def gatherExtract (arun : String → Option String → CrawlRunResult) :
    List String → Except String (List ContentDict)
  | [] => Except.ok []
  | u :: rest =>
    match CrawlEngine.extractContent arun u none with
    | Except.error e => Except.error e
    | Except.ok d =>
      match gatherExtract arun rest with
      | Except.error e => Except.error e
      | Except.ok ds => Except.ok (d :: ds)

def CrawlOrchestrator.parallelExtract (arun : String → Option String → CrawlRunResult)
    (urls : List String) : Except String (List ContentDict) :=
  gatherExtract arun urls

/-- Python's `a or b` on an optional string (`None` and `""` are falsy). -/
def pyOrStr (o : Option String) (d : String) : String :=
  match o with
  | none => d
  | some s => if s == "" then d else s

/-- `form_submit_extract`: navigate to the form url, type every field, click
submit, then extract from `get_current_url() or url`. Returns the session,
the url handed to the extraction engine, and the extraction result. -/
def CrawlOrchestrator.formSubmitExtract (arun : String → Option String → CrawlRunResult)
    (s : MCPSession) (url : String) (form_data : List (String × String))
    (submit_button : String) : MCPSession × String × Except String ContentDict :=
  let s1 := (s.executeAction "navigate" { url := some url }).1
  let s2 := form_data.foldl
    (fun acc kv => (acc.executeAction "type"
        { selector := some kv.1, text := some kv.2,
          element_description := some ("Form field: " ++ kv.1) }).1) s1
  let s3 := (s2.executeAction "click"
      { selector := some submit_button,
        element_description := some "Submit button" }).1
  let current_url := pyOrStr s3.getCurrentUrl url
  (s3, current_url, CrawlEngine.extractContent arun current_url none)

/-- A concrete crawler backend for the C5 witness: url `"b"` fails, the
others succeed. -/
def arun3 : String → Option String → CrawlRunResult := fun u _ =>
  if u == "b" then { success := some false, error_message := some "fetch failed" }
  else { success := some true, markdown := some "ok" }

/-- Spec-side predicate, following the spec's words: a link is same-origin
with respect to a base URL when it equals the base or extends it past a
separator. Used only to state claim C6; the source never computes this. -/
def specSameOrigin (base href : String) : Bool :=
  href == base || prefChars (base ++ "/").data href.data

/-- The BeautifulSoup parse of `<a href="/x">i</a><a href="http://ext.com">e</a>`:
joined text `"i e"`, the two anchors in document order, no images. -/
def exampleSoup : SoupDoc := ⟨"i e", [("/x", "i"), ("http://ext.com", "e")], []⟩

/-! ### Embedding of `src/src/mcp_bridge.py`

The Playwright browser is the external collaborator: `PwBackend` fixes the
outcome of each page/browser operation (`Except.error` models a raised
exception; Playwright startup is folded into `startPw`/`launch`). The bridge
state keeps the four handle attributes as presence flags. `BridgeLog` models
the entries of `action_history` (timestamps dropped); `MCPResult` flattens
the optional `data` dictionary into one optional field per key some method
produces, with `Option (Option String)` where a key can hold `None`. -/

structure NavResponse where
  status : Nat
  ok : Bool
deriving Repr, DecidableEq

structure PwBackend where
  startPw : Except String Unit
  launch : Except String Unit
  goto : Option String → Except String (Option NavResponse)
  waitForSelector : Option String → Nat → Except String Bool
  fill : Option String → Option String → Except String Unit
  clickSel : Option String → Except String Unit
  waitForLoadState : Except String Unit
  pageUrl : String
  contentHtml : Except String String
  evalJs : Option String → Except String String
  screenshot : Except String Unit
  accSnapshot : Except String String
  closePage : Except String Unit
  closeContext : Except String Unit
  closeBrowser : Except String Unit

inductive BridgeLog where
  | nav (url : Option String)
  | typed (selector : Option String) (text : String) (element : String)
  | clicked (selector : Option String) (element : String)
deriving Repr, DecidableEq

structure MCPResult where
  success : Bool
  dataUrl : Option (Option String) := none
  dataStatus : Option Nat := none
  dataOk : Option Bool := none
  dataSelector : Option (Option String) := none
  dataElement : Option String := none
  dataFound : Option Bool := none
  dataHtml : Option String := none
  dataResult : Option String := none
  dataPath : Option (Option String) := none
  dataSnapshot : Option String := none
  dataStatusText : Option String := none
  error : Option String := none
deriving Repr, DecidableEq

structure MCPBridge where
  browser_active : Bool := false
  current_page_url : Option String := none
  action_history : List BridgeLog := []
  playwrightUp : Bool := false
  browserUp : Bool := false
  contextUp : Bool := false
  pageUp : Bool := false
deriving Repr, DecidableEq

def MCPBridge.initializePw (be : PwBackend) (b : MCPBridge) : MCPBridge × Bool :=
  if b.playwrightUp then (b, true)
  else
    match be.startPw with
    | Except.ok _ => ({ b with playwrightUp := true }, true)
    | Except.error _ => (b, false)

/-- The launch sequence of `launch_browser` after the old browser (if any)
has been closed: with no Playwright handle the chromium access raises
(caught, `False`); otherwise launch browser, context and page. -/
def MCPBridge.launchCore (be : PwBackend) (b : MCPBridge) : MCPBridge × Bool :=
  if b.playwrightUp then
    match be.launch with
    | Except.error _ => (b, false)
    | Except.ok _ =>
        ({ b with
            browserUp := true, contextUp := true, pageUp := true,
            browser_active := true }, true)
  else (b, false)

def MCPBridge.launchBrowser (be : PwBackend) (b : MCPBridge) : MCPBridge × Bool :=
  let b1 := (b.initializePw be).1
  if b1.browserUp then
    match be.closeBrowser with
    | Except.error _ => (b1, false)
    | Except.ok _ => b1.launchCore be
  else b1.launchCore be

def MCPBridge.navigate (be : PwBackend) (b : MCPBridge) (url : Option String) :
    MCPBridge × MCPResult :=
  let b1 := if b.pageUp then b else (b.launchBrowser be).1
  if b1.pageUp then
    match be.goto url with
    | Except.error e =>
        (b1, { success := false, error := some ("Navigation failed: " ++ e) })
    | Except.ok resp =>
        ({ b1 with
            current_page_url := url,
            action_history := b1.action_history ++ [BridgeLog.nav url] },
         { success := true, dataUrl := some url,
           dataStatus := some ((resp.map NavResponse.status).getD 200),
           dataOk := some ((resp.map NavResponse.ok).getD true) })
  else
    (b1, { success := false,
           error := some "Navigation failed: page is not available" })

def pyTrunc (t : String) : String :=
  if t.length > 20 then t.take 20 ++ "..." else t

def MCPBridge.typeText (be : PwBackend) (b : MCPBridge) (selector text : Option String)
    (element_desc : String) : MCPBridge × MCPResult :=
  if b.pageUp then
    match be.waitForSelector selector 10000 with
    | Except.error e => (b, { success := false, error := some ("Type failed: " ++ e) })
    | Except.ok _ =>
      match be.fill selector text with
      | Except.error e => (b, { success := false, error := some ("Type failed: " ++ e) })
      | Except.ok _ =>
        match text with
        | none =>
            (b, { success := false,
                  error := some "Type failed: object of type NoneType has no len" })
        | some t =>
            ({ b with action_history := b.action_history
                ++ [BridgeLog.typed selector (pyTrunc t) element_desc] },
             { success := true, dataSelector := some selector,
               dataElement := some element_desc })
  else (b, { success := false, error := some "Browser not initialized" })

def MCPBridge.clickElement (be : PwBackend) (b : MCPBridge) (selector : Option String)
    (element_desc : String) : MCPBridge × MCPResult :=
  if b.pageUp then
    match be.waitForSelector selector 10000 with
    | Except.error e => (b, { success := false, error := some ("Click failed: " ++ e) })
    | Except.ok _ =>
      match be.clickSel selector with
      | Except.error e => (b, { success := false, error := some ("Click failed: " ++ e) })
      | Except.ok _ =>
          ({ b with action_history := b.action_history
              ++ [BridgeLog.clicked selector element_desc] },
           { success := true, dataSelector := some selector,
             dataElement := some element_desc })
  else (b, { success := false, error := some "Browser not initialized" })

def MCPBridge.waitForElement (be : PwBackend) (b : MCPBridge) (selector : Option String)
    (timeout : Nat) : MCPBridge × MCPResult :=
  if b.pageUp then
    match be.waitForSelector selector (timeout * 1000) with
    | Except.error e => (b, { success := false, error := some ("Wait failed: " ++ e) })
    | Except.ok found =>
        (b, { success := true, dataSelector := some selector, dataFound := some found })
  else (b, { success := false, error := some "Browser not initialized" })

def MCPBridge.waitForNavigation (be : PwBackend) (b : MCPBridge) (_timeout : Nat) :
    MCPBridge × MCPResult :=
  if b.pageUp then
    match be.waitForLoadState with
    | Except.error e =>
        (b, { success := false, error := some ("Navigation wait failed: " ++ e) })
    | Except.ok _ =>
        ({ b with current_page_url := some be.pageUrl },
         { success := true, dataUrl := some (some be.pageUrl) })
  else (b, { success := false, error := some "Browser not initialized" })

def MCPBridge.getPageContentR (be : PwBackend) (b : MCPBridge) : MCPBridge × MCPResult :=
  if b.pageUp then
    match be.contentHtml with
    | Except.error e =>
        (b, { success := false, error := some ("Content extraction failed: " ++ e) })
    | Except.ok h =>
        (b, { success := true, dataHtml := some h, dataUrl := some (some be.pageUrl) })
  else (b, { success := false, error := some "Browser not initialized" })

def MCPBridge.takeScreenshot (be : PwBackend) (b : MCPBridge) (path : Option String) :
    MCPBridge × MCPResult :=
  if b.pageUp then
    match be.screenshot with
    | Except.error e =>
        (b, { success := false, error := some ("Screenshot failed: " ++ e) })
    | Except.ok _ =>
        (b, { success := true,
              dataPath := some (some (path.getD "screenshot_timestamped.png")) })
  else (b, { success := false, error := some "Browser not initialized" })

def MCPBridge.evaluateJavascript (be : PwBackend) (b : MCPBridge) (script : Option String) :
    MCPBridge × MCPResult :=
  if b.pageUp then
    match be.evalJs script with
    | Except.error e =>
        (b, { success := false, error := some ("JavaScript evaluation failed: " ++ e) })
    | Except.ok v => (b, { success := true, dataResult := some v })
  else (b, { success := false, error := some "Browser not initialized" })

def MCPBridge.getCurrentUrl (be : PwBackend) (b : MCPBridge) : MCPBridge × MCPResult :=
  if b.pageUp then
    ({ b with current_page_url := some be.pageUrl },
     { success := true, dataUrl := some (some be.pageUrl) })
  else (b, { success := false, error := some "Browser not initialized" })

def MCPBridge.getSnapshot (be : PwBackend) (b : MCPBridge) : MCPBridge × MCPResult :=
  if b.pageUp then
    match be.accSnapshot with
    | Except.error e => (b, { success := false, error := some ("Snapshot failed: " ++ e) })
    | Except.ok snap => (b, { success := true, dataSnapshot := some snap })
  else (b, { success := false, error := some "Browser not initialized" })

/-- `close_browser`: close page, context and browser in turn, skipping
absent handles; a raise at any point is caught and returned as a failure
with the handles closed so far already released. On full success the
activity flag and tracked URL are cleared. -/
def MCPBridge.closeBrowserM (be : PwBackend) (b : MCPBridge) : MCPBridge × MCPResult :=
  match (if b.pageUp then be.closePage else Except.ok ()) with
  | Except.error e =>
      (b, { success := false, error := some ("Browser close failed: " ++ e) })
  | Except.ok _ =>
    let b1 := { b with pageUp := false }
    match (if b1.contextUp then be.closeContext else Except.ok ()) with
    | Except.error e =>
        (b1, { success := false, error := some ("Browser close failed: " ++ e) })
    | Except.ok _ =>
      let b2 := { b1 with contextUp := false }
      match (if b2.browserUp then be.closeBrowser else Except.ok ()) with
      | Except.error e =>
          (b2, { success := false, error := some ("Browser close failed: " ++ e) })
      | Except.ok _ =>
          ({ b2 with
              browserUp := false, browser_active := false,
              current_page_url := none },
           { success := true, dataStatusText := some "closed" })

def MCPBridge.isBrowserActive (b : MCPBridge) : Bool :=
  b.browser_active && b.pageUp

structure BParams where
  url : Option String := none
  ref : Option String := none
  selector : Option String := none
  text : Option String := none
  element : Option String := none
  time : Option Nat := none
  function : Option String := none
  path : Option String := none
deriving Repr, DecidableEq

/-- `_call_mcp_function`: map an MCP-style function name and parameter
dictionary to the corresponding bridge method. -/
def MCPBridge.callMcpFunction (be : PwBackend) (b : MCPBridge) (function_name : String)
    (params : BParams) : MCPBridge × MCPResult :=
  if function_name == "browser_navigate" then
    b.navigate be params.url
  else if function_name == "browser_type" then
    b.typeText be (params.ref <|> params.selector) params.text (params.element.getD "")
  else if function_name == "browser_click" then
    b.clickElement be (params.ref <|> params.selector) (params.element.getD "")
  else if function_name == "browser_wait_for" then
    match params.text with
    | some t => b.waitForElement be (some ("text=" ++ t)) (params.time.getD 30)
    | none => b.waitForNavigation be (params.time.getD 30)
  else if function_name == "browser_evaluate" then
    b.evaluateJavascript be params.function
  else if function_name == "browser_snapshot" then
    b.getSnapshot be
  else if function_name == "browser_close" then
    b.closeBrowserM be
  else if function_name == "browser_screenshot" then
    b.takeScreenshot be params.path
  else
    (b, { success := false, error := some ("Unknown MCP function: " ++ function_name) })

/-- A concrete backend on which every Playwright operation succeeds. -/
def beOk : PwBackend where
  startPw := Except.ok ()
  launch := Except.ok ()
  goto := fun _ => Except.ok (some ⟨200, true⟩)
  waitForSelector := fun _ _ => Except.ok true
  fill := fun _ _ => Except.ok ()
  clickSel := fun _ => Except.ok ()
  waitForLoadState := Except.ok ()
  pageUrl := "about:blank"
  contentHtml := Except.ok "<html></html>"
  evalJs := fun _ => Except.ok ""
  screenshot := Except.ok ()
  accSnapshot := Except.ok ""
  closePage := Except.ok ()
  closeContext := Except.ok ()
  closeBrowser := Except.ok ()

/-- A bridge state with a launched browser and page. -/
def bridgeActive : MCPBridge :=
  { browser_active := true, playwrightUp := true, browserUp := true,
    contextUp := true, pageUp := true }

/-! ### Embedding of `src/src/real_mcp_integration.py`

`RealMCPIntegration` drives the real bridge. The module defines
`_error_result`, `extract_authenticated_content` and `close_session` twice;
Python keeps the later definition of each, so the embedding models the later
`_error_result` (which also logs) as the effective one, and models both
`close_session` definitions side by side, marking the first one shadowed.
`IntLog` models the integration's own `action_history` entries and `AuthDict`
the result dictionaries (timestamps dropped). `AuthStep` is the trace of
workflow steps whose bridge call was actually issued. -/

inductive AuthMethod where
  | form_login
  | oauth
  | api_key
  | session_cookies
deriving Repr, DecidableEq

structure AuthConfig where
  method : AuthMethod := AuthMethod.form_login
  login_url : String
  username_selector : String := "input[name='username']"
  password_selector : String := "input[name='password']"
  submit_selector : String := "button[type='submit']"
  success_indicator : String := ""
  failure_indicator : String := ""
  timeout : Nat := 30
deriving Repr, DecidableEq

structure IntLog where
  action : String
  status : String
  message : Option String := none
  url : Option (Option String) := none
  selector : Option String := none
deriving Repr, DecidableEq

structure AuthState where
  authenticated : Bool
  login_url : String
  current_url : String
  username : String
deriving Repr, DecidableEq

structure AuthDict where
  success : Bool
  authenticated : Option Bool := none
  current_url : Option String := none
  message : Option String := none
  error : Option String := none
  details : Option String := none
deriving Repr, DecidableEq

structure RealMCPIntegration where
  session_active : Bool := false
  current_url : Option String := none
  authentication_state : Option AuthState := none
  action_history : List IntLog := []
  bridge : MCPBridge := {}
deriving Repr, DecidableEq

def RealMCPIntegration.logAction (st : RealMCPIntegration)
    (action message status : String) : RealMCPIntegration :=
  { st with action_history := st.action_history
      ++ [{ action := action, status := status, message := some message,
            url := some st.current_url }] }

/-- The effective `_error_result` (the later of the two definitions): build
the failure dictionary and log an error action. -/
def RealMCPIntegration.errorResult (st : RealMCPIntegration) (message : String)
    (details : Option String) : RealMCPIntegration × AuthDict :=
  (st.logAction "error" message "failed",
   { success := false, error := some message, details := details })

inductive AuthStep where
  | nav
  | waitField
  | typeUser
  | typePass
  | submit
  | urlCheck
deriving Repr, DecidableEq

/-- Browser activation at the top of `authenticate_with_mcp`: when the
bridge is not active, initialize and launch; neither return value is
checked. -/
def authBridge0 (be : PwBackend) (st : RealMCPIntegration) : MCPBridge :=
  if st.bridge.isBrowserActive then st.bridge
  else (((st.bridge.initializePw be).1).launchBrowser be).1

def authNavR (be : PwBackend) (st : RealMCPIntegration) (cfg : AuthConfig) :
    MCPBridge × MCPResult :=
  (authBridge0 be st).navigate be (some cfg.login_url)

def authWaitR (be : PwBackend) (st : RealMCPIntegration) (cfg : AuthConfig) :
    MCPBridge × MCPResult :=
  (authNavR be st cfg).1.waitForElement be (some cfg.username_selector) cfg.timeout

def authTypeUserR (be : PwBackend) (st : RealMCPIntegration) (cfg : AuthConfig)
    (username : String) : MCPBridge × MCPResult :=
  (authWaitR be st cfg).1.typeText be (some cfg.username_selector) (some username)
    "Username field"

def authTypePassR (be : PwBackend) (st : RealMCPIntegration) (cfg : AuthConfig)
    (username password : String) : MCPBridge × MCPResult :=
  (authTypeUserR be st cfg username).1.typeText be (some cfg.password_selector)
    (some password) "Password field"

def authSubmitR (be : PwBackend) (st : RealMCPIntegration) (cfg : AuthConfig)
    (username password : String) : MCPBridge × MCPResult :=
  (authTypePassR be st cfg username password).1.clickElement be
    (some cfg.submit_selector) "Login button"

def authUrlR (be : PwBackend) (st : RealMCPIntegration) (cfg : AuthConfig)
    (username password : String) : MCPBridge × MCPResult :=
  (authSubmitR be st cfg username password).1.getCurrentUrl be

/-- The URL the workflow observes after the submit click and the fixed
settle wait: `url_result.data.get("url", "")` on success, `""` on failure. -/
def authObservedUrl (be : PwBackend) (st : RealMCPIntegration) (cfg : AuthConfig)
    (username password : String) : String :=
  if (authUrlR be st cfg username password).2.success then
    (((authUrlR be st cfg username password).2.dataUrl).getD none).getD ""
  else ""

/-- `authenticate_with_mcp`: ensure the browser, then navigate to the login
page, wait for the username field, type username, type password, click
submit — halting with a step-tagged `_error_result` at the first failing
bridge call — then, after the settle wait, read the current URL and fail
with "still on login page" when the login URL still occurs in it (Python's
`in`), else record the authenticated session. Also returns the list of
workflow steps whose bridge call was issued. -/
def authenticateWithMCP (be : PwBackend) (st : RealMCPIntegration) (cfg : AuthConfig)
    (username password : String) : RealMCPIntegration × AuthDict × List AuthStep :=
  let nav := authNavR be st cfg
  let st1 : RealMCPIntegration := { st with bridge := nav.1 }
  if nav.2.success = true then
    let st1 := { st1 with action_history := st1.action_history
        ++ [({ action := "navigate", url := some (some cfg.login_url),
               status := "success" } : IntLog)] }
    let w := authWaitR be st cfg
    let st2 := { st1 with bridge := w.1 }
    if w.2.success = true then
      let tu := authTypeUserR be st cfg username
      let st3 := { st2 with bridge := tu.1 }
      if tu.2.success = true then
        let st3 := { st3 with action_history := st3.action_history
            ++ [({ action := "type_username",
                   selector := some cfg.username_selector,
                   status := "success" } : IntLog)] }
        let tp := authTypePassR be st cfg username password
        let st4 := { st3 with bridge := tp.1 }
        if tp.2.success = true then
          let st4 := { st4 with action_history := st4.action_history
              ++ [({ action := "type_password",
                     selector := some cfg.password_selector,
                     status := "success" } : IntLog)] }
          let sb := authSubmitR be st cfg username password
          let st5 := { st4 with bridge := sb.1 }
          if sb.2.success = true then
            let st5 := { st5 with action_history := st5.action_history
                ++ [({ action := "submit_login",
                       selector := some cfg.submit_selector,
                       status := "success" } : IntLog)] }
            let ur := authUrlR be st cfg username password
            let st6 := { st5 with bridge := ur.1 }
            let cur := authObservedUrl be st cfg username password
            if pyIn cfg.login_url cur then
              let er := st6.errorResult "Authentication failed - still on login page" none
              (er.1, er.2,
               [AuthStep.nav, AuthStep.waitField, AuthStep.typeUser,
                AuthStep.typePass, AuthStep.submit, AuthStep.urlCheck])
            else
              ({ st6 with
                  session_active := true,
                  current_url := some cur,
                  authentication_state := some
                    { authenticated := true, login_url := cfg.login_url,
                      current_url := cur, username := username } },
               { success := true, authenticated := some true,
                 current_url := some cur,
                 message := some "Authentication completed successfully" },
               [AuthStep.nav, AuthStep.waitField, AuthStep.typeUser,
                AuthStep.typePass, AuthStep.submit, AuthStep.urlCheck])
          else
            let er := st5.errorResult "Form submission failed" sb.2.error
            (er.1, er.2,
             [AuthStep.nav, AuthStep.waitField, AuthStep.typeUser,
              AuthStep.typePass, AuthStep.submit])
        else
          let er := st4.errorResult "Password entry failed" tp.2.error
          (er.1, er.2,
           [AuthStep.nav, AuthStep.waitField, AuthStep.typeUser, AuthStep.typePass])
      else
        let er := st3.errorResult "Username entry failed" tu.2.error
        (er.1, er.2, [AuthStep.nav, AuthStep.waitField, AuthStep.typeUser])
    else
      let er := st2.errorResult "Username field not found" w.2.error
      (er.1, er.2, [AuthStep.nav, AuthStep.waitField])
  else
    let er := st1.errorResult "Navigation failed" nav.2.error
    (er.1, er.2, [AuthStep.nav])

/-- The first definition of `close_session` (the async one): close the
browser through the bridge when active, clear the session, and return a
success dictionary. In Python this definition is dead code — the module
later redefines `close_session` and the later definition wins. -/
def RealMCPIntegration.closeSessionShadowed (be : PwBackend) (st : RealMCPIntegration) :
    RealMCPIntegration × AuthDict :=
  let b1 := if st.bridge.isBrowserActive then (st.bridge.closeBrowserM be).1 else st.bridge
  ({ st with
      bridge := b1, session_active := false, current_url := none,
      authentication_state := none },
   { success := true, message := some "Session closed successfully" })

/-- The second definition of `close_session` (the one Python keeps): a
synchronous stub that clears two flags, logs, releases no browser resources,
and returns no value (`None`, modelled as `none`). -/
def RealMCPIntegration.closeSessionEffective (st : RealMCPIntegration) :
    RealMCPIntegration × Option AuthDict :=
  (({ st with session_active := false, authentication_state := none }).logAction
      "close" "Closed authentication session" "success", none)

/-- A backend on which `wait_for_selector` always raises a timeout while
everything else succeeds. -/
def beWaitFail : PwBackend :=
  { beOk with waitForSelector := fun _ _ => Except.error "timeout 30000ms exceeded" }

/-- An integration state whose bridge has an active browser and page. -/
def stActive : RealMCPIntegration :=
  { session_active := true, bridge := bridgeActive }

def cfgLogin : AuthConfig :=
  { login_url := "http://login.example" }

/-- A backend on which every operation succeeds and the page URL stays the
login URL (a login page that never redirects). -/
def beStay : PwBackend :=
  { beOk with pageUrl := "http://login.example" }

/-! ### Theorems -/

theorem prefChars_refl (l : List Char) : prefChars l l = true := by
  induction l with
  | nil => rfl
  | cons a as ih => simp [prefChars, ih]

theorem pyIn_refl (s : String) : pyIn s s = true := by
  unfold pyIn
  cases h : s.data with
  | nil => rfl
  | cons c cs =>
    have := prefChars_refl (c :: cs)
    simp [subChars, this]

/-- Claim C1: dispatching any action name outside the closed enumeration
returns a failure result whose message names the unsupported action; the
dispatcher is a total function, so no exception escapes the boundary, and no
backend call is made. -/
theorem executeAction_unknown (s : MCPSession) (a : String) (kw : Params)
    (h : a ∉ (["navigate", "click", "type", "wait", "evaluate", "snapshot",
               "get_html", "authenticate", "close"] : List String)) :
    (s.executeAction a kw).2.1.status = "error"
      ∧ (s.executeAction a kw).2.1.message = some ("Unknown action: " ++ a)
      ∧ (s.executeAction a kw).2.2 = [] := by
  simp only [List.mem_cons, List.not_mem_nil, or_false, not_or] at h
  obtain ⟨h1, h2, h3, h4, h5, h6, h7, h8, h9⟩ := h
  simp [MCPSession.executeAction, h1, h2, h3, h4, h5, h6, h7, h8]

/-- Witness for C1 at the concrete unknown action name `"scroll"`. -/
theorem executeAction_unknown_witness :
    (({} : MCPSession).executeAction "scroll" {}).2.1.status = "error"
      ∧ (({} : MCPSession).executeAction "scroll" {}).2.1.message
          = some ("Unknown action: " ++ "scroll")
      ∧ (({} : MCPSession).executeAction "scroll" {}).2.2 = [] :=
  executeAction_unknown {} "scroll" {} (by decide)

/-- Every branch of `execute_action` appends exactly its result to the
session history (helper for the history-length invariant). -/
theorem executeAction_history (s : MCPSession) (a : String) (kw : Params) :
    (s.executeAction a kw).1.history = s.history ++ [(s.executeAction a kw).2.1] := by
  unfold MCPSession.executeAction
  repeat' split
  all_goals rfl

/-- Only the `navigate` branch touches `current_url`; it stores the `url`
keyword argument as given (possibly missing, i.e. `none`). -/
theorem executeAction_current_url (s : MCPSession) (a : String) (kw : Params) :
    (s.executeAction a kw).1.wrapper.current_url
      = if a == "navigate" then kw.url else s.wrapper.current_url := by
  unfold MCPSession.executeAction
  repeat' split
  all_goals simp_all [MCPWrapper.navigate, MCPWrapper.click, MCPWrapper.typeText,
    MCPWrapper.takeSnapshot, MCPWrapper.waitForElement, MCPWrapper.evaluateJs,
    MCPWrapper.handleAuthentication]

/-- Claim C2 (amended): for the `MCPSession` dispatcher, every dispatch call
— whether it succeeds or fails — appends exactly one entry to the session
history, so after a sequence of `n` calls the history has grown by `n`. -/
theorem run_history_length (calls : List (String × Params)) (s : MCPSession) :
    (s.run calls).history.length = s.history.length + calls.length := by
  induction calls generalizing s with
  | nil => simp [MCPSession.run]
  | cons c rest ih =>
    rw [MCPSession.run, ih, executeAction_history]
    simp
    omega

/-- Claim C8 (amended): in every reachable session state, the tracked current
URL equals the `url` parameter of the most recent `navigate` dispatch (and is
the initial value when no navigate has occurred); hence it is non-null iff at
least one navigate has occurred and the most recent navigate carried a url
parameter. -/
theorem run_current_url (calls : List (String × Params)) (s : MCPSession) :
    (s.run calls).wrapper.current_url = lastNavParam s.wrapper.current_url calls := by
  induction calls generalizing s with
  | nil => simp [MCPSession.run, lastNavParam]
  | cons c rest ih =>
    rw [MCPSession.run, ih]
    simp only [lastNavParam, List.foldl_cons]
    rw [executeAction_current_url]

/-- Counterexample to claim C8 as stated: dispatching `navigate` with the
`url` parameter missing is a successful navigate action after which the
session's current URL is still null, although no close has happened. -/
theorem navigate_missing_url_null :
    (({} : MCPSession).executeAction "navigate" {}).2.1.status = "success"
      ∧ (({} : MCPSession).executeAction "navigate" {}).1.wrapper.current_url = none :=
  ⟨rfl, rfl⟩

/-- Counterexample to claim C9 as stated: a `navigate` dispatch with the
required `url` parameter missing is not rejected with a malformed-input
failure: the backend navigate call is dispatched (with a null url) and the
call reports success. -/
theorem navigate_missing_url_dispatched :
    (({} : MCPSession).executeAction "navigate" {}).2.2 = [WCall.navigate none]
      ∧ (({} : MCPSession).executeAction "navigate" {}).2.1.status = "success"
      ∧ (({} : MCPSession).executeAction "navigate" {}).2.1.status ≠ "error" :=
  ⟨rfl, rfl, by decide⟩

/-- Claim C9 (amended): dispatch performs no per-action parameter validation:
a call missing a required parameter is forwarded to the backend with a null
value — `navigate` without `url` dispatches the backend navigate with a null
url and reports success, and `type` without `selector` and `text` dispatches
the backend type call with null arguments and reports success. -/
theorem dispatch_no_param_validation :
    (∀ (s : MCPSession) (kw : Params), kw.url = none →
        (s.executeAction "navigate" kw).2.2 = [WCall.navigate none]
          ∧ (s.executeAction "navigate" kw).2.1.status = "success")
    ∧ (∀ (s : MCPSession) (kw : Params), kw.selector = none → kw.text = none →
        (s.executeAction "type" kw).2.2
            = [WCall.typeText none none (kw.element_description.getD "input field")]
          ∧ (s.executeAction "type" kw).2.1.status = "success") := by
  constructor
  · intro s kw h
    simp [MCPSession.executeAction, MCPWrapper.navigate, h]
  · intro s kw h1 h2
    simp [MCPSession.executeAction, MCPWrapper.typeText, h1, h2]

/-- Witness for the amended C9 at concrete inputs: empty parameter records. -/
theorem dispatch_no_param_validation_witness :
    ((({} : MCPSession).executeAction "navigate" {}).2.2 = [WCall.navigate none]
        ∧ (({} : MCPSession).executeAction "navigate" {}).2.1.status = "success")
      ∧ ((({} : MCPSession).executeAction "type" {}).2.2
            = [WCall.typeText none none "input field"]
          ∧ (({} : MCPSession).executeAction "type" {}).2.1.status = "success") :=
  ⟨dispatch_no_param_validation.1 {} {} rfl,
   dispatch_no_param_validation.2 {} {} rfl rfl⟩

/-- When no `arun` result makes an attribute access raise, every extraction
produces its own dictionary and the whole list is returned in input order. -/
theorem parallelExtract_ok (arun : String → Option String → CrawlRunResult) :
    ∀ urls : List String, (∀ u ∈ urls, arunRaises (arun u none) = false) →
      CrawlOrchestrator.parallelExtract arun urls
        = Except.ok (urls.map fun u => extractContentOk arun u none) := by
  intro urls
  induction urls with
  | nil => intro _; rfl
  | cons a l ih =>
    intro h
    have ha : arunRaises (arun a none) = false := h a (by simp)
    have hl := ih (fun u hu => h u (by simp [hu]))
    simp only [CrawlOrchestrator.parallelExtract] at hl ⊢
    simp [gatherExtract, CrawlEngine.extractContent, ha, hl]

/-- Claim C5: `parallel_extract` returns one result per input url, in input
url order; each entry is computed from that url's own backend result alone,
so one url's failed extraction (a failure dictionary) leaves the others'
results intact, and the call itself raises nothing. -/
theorem parallelExtract_independent (arun : String → Option String → CrawlRunResult)
    (urls : List String) (h : ∀ u ∈ urls, arunRaises (arun u none) = false) :
    CrawlOrchestrator.parallelExtract arun urls
        = Except.ok (urls.map fun u => extractContentOk arun u none)
      ∧ (urls.map fun u => extractContentOk arun u none).length = urls.length :=
  ⟨parallelExtract_ok arun urls h, List.length_map urls _⟩

/-- Witness for C5 over three concrete urls with the middle one failing. -/
theorem parallelExtract_independent_witness :
    (∀ u ∈ (["a", "b", "c"] : List String), arunRaises (arun3 u none) = false)
      ∧ CrawlOrchestrator.parallelExtract arun3 ["a", "b", "c"]
          = Except.ok (["a", "b", "c"].map fun u => extractContentOk arun3 u none)
      ∧ (extractContentOk arun3 "a" none).success = true
      ∧ (extractContentOk arun3 "b" none).success = false
      ∧ (extractContentOk arun3 "b" none).error = some "fetch failed"
      ∧ (extractContentOk arun3 "c" none).success = true :=
  ⟨by decide, (parallelExtract_independent arun3 ["a", "b", "c"] (by decide)).1,
   rfl, rfl, rfl, rfl⟩

/-- Counterexample to claim C6 as stated: an absolute same-origin link
(`http://s.com/p` against base `http://s.com`) is classified external, not
internal, because the source partitions purely on the `"http"` prefix. -/
theorem sameOrigin_link_classified_external :
    specSameOrigin "http://s.com" "http://s.com/p" = true
      ∧ (CrawlEngine.extractFromHtml ⟨"t", [("http://s.com/p", "t")], []⟩
            (some "http://s.com")).links.internal = []
      ∧ (CrawlEngine.extractFromHtml ⟨"t", [("http://s.com/p", "t")], []⟩
            (some "http://s.com")).links.external = [⟨"http://s.com/p", "t"⟩] := by
  refine ⟨by decide, rfl, rfl⟩

theorem classify_foldl (l : List (String × String)) (acc : HtmlLinks) :
    l.foldl classifyStep acc
      = { internal := acc.internal
            ++ (l.filter (fun a => !pyStartsWith a.1 "http")).map (fun a => ⟨a.1, a.2⟩),
          external := acc.external
            ++ (l.filter (fun a => pyStartsWith a.1 "http")).map (fun a => ⟨a.1, a.2⟩) } := by
  induction l generalizing acc with
  | nil => simp
  | cons a l ih =>
    cases h : pyStartsWith a.1 "http" <;>
      simp [classifyStep, h, ih, List.filter_cons]

/-- Claim C6 (amended): plain extraction classifies a link external iff its
href starts with `"http"` and internal otherwise (so relative links are
internal, but absolute same-origin links are external too); in particular the
HTML from the claim yields exactly one internal link `/x` and one external
link `http://ext.com`. -/
theorem extractFromHtml_partition :
    (∀ (doc : SoupDoc) (b : Option String),
        (CrawlEngine.extractFromHtml doc b).links.internal
            = (doc.anchors.filter (fun a => !pyStartsWith a.1 "http")).map
                (fun a => ⟨a.1, a.2⟩)
          ∧ (CrawlEngine.extractFromHtml doc b).links.external
            = (doc.anchors.filter (fun a => pyStartsWith a.1 "http")).map
                (fun a => ⟨a.1, a.2⟩))
    ∧ (CrawlEngine.extractFromHtml exampleSoup none).links.internal = [⟨"/x", "i"⟩]
    ∧ (CrawlEngine.extractFromHtml exampleSoup none).links.external
        = [⟨"http://ext.com", "e"⟩] := by
  refine ⟨fun doc b => ?_, by decide, by decide⟩
  constructor <;> simp [CrawlEngine.extractFromHtml, classify_foldl]

/-- Claim C10: the tracked current URL is changed only by navigate — every
click, type, wait, evaluate, snapshot or get_html dispatch leaves
`get_current_url` unchanged — and consequently `form_submit_extract` hands
the extraction engine the supplied form url (the last navigated url), not a
url reached by a submission-triggered redirect. -/
theorem current_url_frame :
    (∀ a ∈ (["click", "type", "wait", "evaluate", "snapshot", "get_html"] : List String),
        ∀ (kw : Params) (s : MCPSession),
          (s.executeAction a kw).1.wrapper.current_url = s.wrapper.current_url)
    ∧ (∀ (arun : String → Option String → CrawlRunResult) (s : MCPSession)
          (url : String) (fd : List (String × String)) (sb : String),
        (CrawlOrchestrator.formSubmitExtract arun s url fd sb).2.1 = url) := by
  constructor
  · intro a ha kw s
    fin_cases ha <;> rw [executeAction_current_url] <;> rfl
  · intro arun s url fd sb
    have hfold : ∀ (fd : List (String × String)) (t : MCPSession),
        (fd.foldl (fun acc kv => (acc.executeAction "type"
            { selector := some kv.1, text := some kv.2,
              element_description := some ("Form field: " ++ kv.1) }).1) t).wrapper.current_url
          = t.wrapper.current_url := by
      intro fd
      induction fd with
      | nil => intro t; rfl
      | cons kv l ih =>
        intro t
        rw [List.foldl_cons, ih, executeAction_current_url]
        rfl
    simp only [CrawlOrchestrator.formSubmitExtract, MCPSession.getCurrentUrl]
    rw [executeAction_current_url]
    simp only [hfold]
    rw [executeAction_current_url]
    simp [pyOrStr]

/-- Witness for C10 at a concrete non-navigate action and a concrete form
submission. -/
theorem current_url_frame_witness :
    (({} : MCPSession).executeAction "click" {}).1.wrapper.current_url
        = ({} : MCPSession).wrapper.current_url
      ∧ (CrawlOrchestrator.formSubmitExtract (fun _ _ => {}) {} "http://f.example"
            [] "btn").2.1 = "http://f.example" :=
  ⟨current_url_frame.1 "click" (by decide) {} {},
   current_url_frame.2 (fun _ _ => {}) {} "http://f.example" [] "btn"⟩

/-- Counterexample to claim C2 as stated: on the `MCPBridge` dispatcher (the
second dispatcher the claim covers), a `browser_wait_for` dispatch succeeds
yet appends nothing to the bridge's action history, so after one dispatch
call the history length is 0, not 1. -/
theorem bridge_dispatch_no_history :
    (MCPBridge.callMcpFunction beOk bridgeActive "browser_wait_for"
        { text := some "x" }).2.success = true
      ∧ (MCPBridge.callMcpFunction beOk bridgeActive "browser_wait_for"
          { text := some "x" }).1.action_history.length = 0 :=
  ⟨rfl, rfl⟩

/-- Claim C4: whichever of the five workflow steps (navigate, wait for the
username field, type username, type password, click submit) fails first, the
authentication workflow halts — no later step's bridge call is issued — and
returns a failure whose error message names exactly that step. -/
theorem auth_halts_on_step_failure (be : PwBackend) (st : RealMCPIntegration)
    (cfg : AuthConfig) (u p : String) :
    ((authNavR be st cfg).2.success = false →
        (authenticateWithMCP be st cfg u p).2.1.success = false
          ∧ (authenticateWithMCP be st cfg u p).2.1.error = some "Navigation failed"
          ∧ (authenticateWithMCP be st cfg u p).2.2 = [AuthStep.nav])
      ∧ ((authNavR be st cfg).2.success = true →
          (authWaitR be st cfg).2.success = false →
          (authenticateWithMCP be st cfg u p).2.1.success = false
            ∧ (authenticateWithMCP be st cfg u p).2.1.error
                = some "Username field not found"
            ∧ (authenticateWithMCP be st cfg u p).2.2
                = [AuthStep.nav, AuthStep.waitField])
      ∧ ((authNavR be st cfg).2.success = true →
          (authWaitR be st cfg).2.success = true →
          (authTypeUserR be st cfg u).2.success = false →
          (authenticateWithMCP be st cfg u p).2.1.success = false
            ∧ (authenticateWithMCP be st cfg u p).2.1.error
                = some "Username entry failed"
            ∧ (authenticateWithMCP be st cfg u p).2.2
                = [AuthStep.nav, AuthStep.waitField, AuthStep.typeUser])
      ∧ ((authNavR be st cfg).2.success = true →
          (authWaitR be st cfg).2.success = true →
          (authTypeUserR be st cfg u).2.success = true →
          (authTypePassR be st cfg u p).2.success = false →
          (authenticateWithMCP be st cfg u p).2.1.success = false
            ∧ (authenticateWithMCP be st cfg u p).2.1.error
                = some "Password entry failed"
            ∧ (authenticateWithMCP be st cfg u p).2.2
                = [AuthStep.nav, AuthStep.waitField, AuthStep.typeUser,
                   AuthStep.typePass])
      ∧ ((authNavR be st cfg).2.success = true →
          (authWaitR be st cfg).2.success = true →
          (authTypeUserR be st cfg u).2.success = true →
          (authTypePassR be st cfg u p).2.success = true →
          (authSubmitR be st cfg u p).2.success = false →
          (authenticateWithMCP be st cfg u p).2.1.success = false
            ∧ (authenticateWithMCP be st cfg u p).2.1.error
                = some "Form submission failed"
            ∧ (authenticateWithMCP be st cfg u p).2.2
                = [AuthStep.nav, AuthStep.waitField, AuthStep.typeUser,
                   AuthStep.typePass, AuthStep.submit]) := by
  refine ⟨fun h1 => ?_, fun h1 h2 => ?_, fun h1 h2 h3 => ?_,
    fun h1 h2 h3 h4 => ?_, fun h1 h2 h3 h4 h5 => ?_⟩
  all_goals
    simp [authenticateWithMCP, RealMCPIntegration.errorResult,
      RealMCPIntegration.logAction, *]

/-- Witness for C4: with a backend whose wait times out, the workflow stops
after navigate and wait, reporting exactly the failing step. -/
theorem auth_halts_on_step_failure_witness :
    (authNavR beWaitFail stActive cfgLogin).2.success = true
      ∧ (authWaitR beWaitFail stActive cfgLogin).2.success = false
      ∧ (authenticateWithMCP beWaitFail stActive cfgLogin "u" "p").2.1.error
          = some "Username field not found"
      ∧ (authenticateWithMCP beWaitFail stActive cfgLogin "u" "p").2.2
          = [AuthStep.nav, AuthStep.waitField] :=
  ⟨rfl, rfl,
   ((auth_halts_on_step_failure beWaitFail stActive cfgLogin "u" "p").2.1
      rfl rfl).2.1,
   ((auth_halts_on_step_failure beWaitFail stActive cfgLogin "u" "p").2.1
      rfl rfl).2.2⟩

/-- Claim C3: when all five workflow steps succeed, the workflow reports
authentication success only if the URL observed after the submit click and
the settle wait differs from the configured login URL; when the observed URL
is still the login URL it returns a failure whose message identifies "still
on login page". -/
theorem auth_url_redirect_check (be : PwBackend) (st : RealMCPIntegration)
    (cfg : AuthConfig) (u p : String)
    (h1 : (authNavR be st cfg).2.success = true)
    (h2 : (authWaitR be st cfg).2.success = true)
    (h3 : (authTypeUserR be st cfg u).2.success = true)
    (h4 : (authTypePassR be st cfg u p).2.success = true)
    (h5 : (authSubmitR be st cfg u p).2.success = true) :
    ((authenticateWithMCP be st cfg u p).2.1.success = true →
        authObservedUrl be st cfg u p ≠ cfg.login_url)
      ∧ (authObservedUrl be st cfg u p = cfg.login_url →
          (authenticateWithMCP be st cfg u p).2.1.success = false
            ∧ (authenticateWithMCP be st cfg u p).2.1.error
                = some "Authentication failed - still on login page"
            ∧ pyIn "still on login page"
                "Authentication failed - still on login page" = true) := by
  constructor
  · intro hs heq
    by_cases hc : pyIn cfg.login_url (authObservedUrl be st cfg u p) = true
    · simp [authenticateWithMCP, RealMCPIntegration.errorResult,
        RealMCPIntegration.logAction, h1, h2, h3, h4, h5, hc] at hs
    · rw [heq] at hc
      exact hc (pyIn_refl cfg.login_url)
  · intro heq
    have hc : pyIn cfg.login_url (authObservedUrl be st cfg u p) = true := by
      rw [heq]; exact pyIn_refl cfg.login_url
    refine ⟨?_, ?_, by decide⟩ <;>
      simp [authenticateWithMCP, RealMCPIntegration.errorResult,
        RealMCPIntegration.logAction, h1, h2, h3, h4, h5, hc]

/-- Witness for C3 against a login page that never redirects: all steps
succeed, the observed URL equals the login URL, and the workflow fails with
the "still on login page" message. -/
theorem auth_url_redirect_check_witness :
    (authNavR beStay stActive cfgLogin).2.success = true
      ∧ authObservedUrl beStay stActive cfgLogin "u" "p" = cfgLogin.login_url
      ∧ (authenticateWithMCP beStay stActive cfgLogin "u" "p").2.1.success = false
      ∧ (authenticateWithMCP beStay stActive cfgLogin "u" "p").2.1.error
          = some "Authentication failed - still on login page" :=
  ⟨rfl, rfl,
   ((auth_url_redirect_check beStay stActive cfgLogin "u" "p"
       rfl rfl rfl rfl rfl).2 rfl).1,
   ((auth_url_redirect_check beStay stActive cfgLogin "u" "p"
       rfl rfl rfl rfl rfl).2 rfl).2.1⟩

/-- Claim C7 (code bug): the module's later duplicate definition of
`close_session` shadows the async one, so the close that callers actually
reach returns no ActionResult at all (`None`) — twice in a row — while the
shadowed implementation (matching the claim and the spec) would have
returned a success result both times. -/
theorem closeSession_shadowing_bug :
    ((stActive.closeSessionEffective).2 = none
        ∧ (((stActive.closeSessionEffective).1).closeSessionEffective).2 = none)
      ∧ ((stActive.closeSessionShadowed beOk).2.success = true
        ∧ (((stActive.closeSessionShadowed beOk).1).closeSessionShadowed
              beOk).2.success = true) :=
  ⟨⟨rfl, rfl⟩, ⟨rfl, rfl⟩⟩

end CrawlDemo
